import Mathlib

/-!
Verification of the storage gateway (`src/edtech/courses/storage.py`) and the
admin registrations (`src/edtech/courses/admin.py`) of the edtech repository.

The storage module is embedded shallowly: Python optional string arguments
become `Option String`, Python truthiness (`x or y`) is modelled explicitly,
the supabase client is a value built from the configured URL and credential,
and the network interaction is a function from client and request to an
`Except`-valued response.  Each operation returns its result together with the
list of client calls it performed, so that claims about which requests reach
the storage service (bucket used, upsert flag, ttl, number of calls, client
identity) can be stated and proved.
-/

namespace EdTech

/-- The process configuration read by the module (`django.conf.settings`). -/
structure Settings where
  SUPABASE_URL : String
  SUPABASE_SERVICE_ROLE : String
  SUPABASE_BUCKET : String
deriving DecidableEq

/-- A Python value appearing in the storage service's response dictionary:
either Python `None` or a string. -/
inductive PyVal where
  | vnone : PyVal
  | vstr : String → PyVal
deriving DecidableEq

/-- Python truthiness of a response value: `None` and `""` are falsy. -/
def truthy : PyVal → Bool
  | PyVal.vnone => false
  | PyVal.vstr s => !(s == "")

/-- Python `a or b`: returns `a` when `a` is truthy, else `b`. -/
def pyOr (a b : PyVal) : PyVal :=
  if truthy a then a else b

/-- Python `d.get(k)` on a response dictionary: the value stored under `k`,
or Python `None` when the key is absent. -/
def dictGet (d : List (String × PyVal)) (k : String) : PyVal :=
  match d.find? (fun p => p.1 == k) with
  | Option.some p => p.2
  | Option.none => PyVal.vnone

/-- The supabase client object, as created by `create_client(url, key)`. -/
structure SupabaseClient where
  url : String
  key : String
deriving DecidableEq

/-- `supabase.create_client`. -/
def create_client (url key : String) : SupabaseClient :=
  ⟨url, key⟩

/-- The module-level client:
`_client = create_client(settings.SUPABASE_URL, settings.SUPABASE_SERVICE_ROLE)`. -/
def _client (st : Settings) : SupabaseClient :=
  create_client st.SUPABASE_URL st.SUPABASE_SERVICE_ROLE

/-- A request sent to the storage service:
`_client.storage.from_(bucket).upload(path, data, {"upsert": True})` or
`_client.storage.from_(bucket).create_signed_url(path, expires_sec)`. -/
inductive StorageRequest where
  | upload (bucket path : String) (data : List Nat) (upsert : Bool)
  | createSignedUrl (bucket path : String) (expires_sec : Int)
deriving DecidableEq

/-- One call performed on the storage client: which client object the call
went through and the request it carried. -/
structure ClientCall where
  client : SupabaseClient
  req : StorageRequest
deriving DecidableEq

/-- The behavior of the external storage service, as observed through a
client: each request either yields a response dictionary or fails with the
service's error. -/
abbrev Service := SupabaseClient → StorageRequest → Except String (List (String × PyVal))

/-- `bucket = bucket or settings.SUPABASE_BUCKET`: Python truthiness makes
both an absent bucket and an empty-string bucket fall back to the default. -/
def resolve_bucket (st : Settings) (bucket : Option String) : String :=
  match bucket with
  | Option.none => st.SUPABASE_BUCKET
  | Option.some b => if b == "" then st.SUPABASE_BUCKET else b

/-- The single request that `upload_bytes` sends. -/
def upload_request (st : Settings) (path : String) (data : List Nat)
    (bucket : Option String) : StorageRequest :=
  StorageRequest.upload (resolve_bucket st bucket) path data true

/-- `upload_bytes(path_in_bucket, data, bucket=None)`: resolves the bucket,
performs one `upload` call with `{"upsert": True}`, and returns the path on
success; a client error propagates unchanged. -/
def upload_bytes (st : Settings) (service : Service) (path_in_bucket : String)
    (data : List Nat) (bucket : Option String := Option.none) :
    Except String String × List ClientCall :=
  let req := upload_request st path_in_bucket data bucket
  match service (_client st) req with
  | Except.ok _ => (Except.ok path_in_bucket, [⟨_client st, req⟩])
  | Except.error e => (Except.error e, [⟨_client st, req⟩])

/-- The single request that `signed_url` sends. -/
def signed_url_request (st : Settings) (path : String) (expires_sec : Int)
    (bucket : Option String) : StorageRequest :=
  StorageRequest.createSignedUrl (resolve_bucket st bucket) path expires_sec

/-- `signed_url(path_in_bucket, expires_sec=60, bucket=None)`: resolves the
bucket, performs one `create_signed_url` call, and parses the response as
`res.get("signedURL") or res.get("signed_url")`; a client error propagates
unchanged. -/
def signed_url (st : Settings) (service : Service) (path_in_bucket : String)
    (expires_sec : Int := 60) (bucket : Option String := Option.none) :
    Except String PyVal × List ClientCall :=
  let req := signed_url_request st path_in_bucket expires_sec bucket
  match service (_client st) req with
  | Except.ok res =>
      (Except.ok (pyOr (dictGet res "signedURL") (dictGet res "signed_url")),
        [⟨_client st, req⟩])
  | Except.error e => (Except.error e, [⟨_client st, req⟩])

/-- Modelled from the spec: the external object-storage service's bucket
state, a map from (bucket, path) to the stored payload.  The service itself
is an out-of-scope collaborator of the repository. -/
def storeLookup : List ((String × String) × List Nat) → String → String → Option (List Nat)
  | [], _, _ => Option.none
  | (e :: rest), bucket, path =>
      if e.1 = (bucket, path) then Option.some e.2 else storeLookup rest bucket path

/-- Modelled from the spec: the service's overwrite (upsert) write — the new
payload replaces any existing object at the same (bucket, path). -/
def storeUpsert (store : List ((String × String) × List Nat))
    (bucket path : String) (data : List Nat) : List ((String × String) × List Nat) :=
  ((bucket, path), data) :: store.filter (fun e => decide (e.1 ≠ (bucket, path)))

/-- Modelled from the spec: how the service's bucket state reacts to a
request.  An upload with `upsert` set overwrites; without it, an upload to an
occupied path is refused (state unchanged); signed-URL requests are reads. -/
def applyRequest (store : List ((String × String) × List Nat)) :
    StorageRequest → List ((String × String) × List Nat)
  | StorageRequest.upload b p d u =>
      if u then storeUpsert store b p d
      else
        match storeLookup store b p with
        | Option.none => ((b, p), d) :: store
        | Option.some _ => store
  | StorageRequest.createSignedUrl _ _ _ => store

/-! ### The admin module (`src/edtech/courses/admin.py`) -/

/-- The five models the admin module registers. -/
inductive Model where
  | PDFDocument | Course | Lesson | LessonPDF | Enrollment
deriving DecidableEq

/-- A `admin.TabularInline` subclass: its `model` and `extra` attributes. -/
structure TabularInline where
  model : Model
  extra : Nat
deriving DecidableEq

/-- A `admin.ModelAdmin` subclass: its `list_display` and `inlines`. -/
structure ModelAdmin where
  list_display : List String
  inlines : List TabularInline
deriving DecidableEq

/-- `class LessonPDFInline(admin.TabularInline): model = LessonPDF; extra = 1`. -/
def LessonPDFInline : TabularInline :=
  ⟨Model.LessonPDF, 1⟩

/-- `class LessonAdmin(admin.ModelAdmin)` with its `list_display` and
`inlines`. -/
def LessonAdmin : ModelAdmin :=
  ⟨["title", "course", "created_at"], [LessonPDFInline]⟩

/-- One `admin.site.register(...)` line: a model registered plainly or with a
`ModelAdmin`. -/
inductive AdminEntry where
  | plain (m : Model)
  | withAdmin (m : Model) (a : ModelAdmin)
deriving DecidableEq

/-- The model a registration line registers. -/
def modelOf : AdminEntry → Model
  | AdminEntry.plain m => m
  | AdminEntry.withAdmin m _ => m

/-- The five `admin.site.register` calls of the module, in source order. -/
def site_registrations : List AdminEntry :=
  [AdminEntry.plain Model.PDFDocument,
   AdminEntry.plain Model.Course,
   AdminEntry.withAdmin Model.Lesson LessonAdmin,
   AdminEntry.plain Model.LessonPDF,
   AdminEntry.plain Model.Enrollment]

/-! ### Concrete instances used by witnesses and counterexamples -/

/-- A concrete configuration. -/
def stEx : Settings :=
  ⟨"https://example.supabase.co", "service-role-key", "course-content"⟩

/-- A service that accepts every request with an empty response. -/
def svcOk : Service :=
  fun _ _ => Except.ok []

/-- A service that fails every request. -/
def svcErr : Service :=
  fun _ _ => Except.error "network failure"

/-- A service that answers every request with the fixed dictionary `res`. -/
def constService (res : List (String × PyVal)) : Service :=
  fun _ _ => Except.ok res

/-! ### Helper lemmas -/

/-- `upload_bytes` always performs exactly this one client call. -/
theorem upload_bytes_calls (st : Settings) (service : Service) (path : String)
    (data : List Nat) (bucket : Option String) :
    (upload_bytes st service path data bucket).2
      = [⟨_client st, upload_request st path data bucket⟩] := by
  unfold upload_bytes
  cases h : service (_client st) (upload_request st path data bucket) <;> simp [h]

/-- `signed_url` always performs exactly this one client call. -/
theorem signed_url_calls (st : Settings) (service : Service) (path : String)
    (ttl : Int) (bucket : Option String) :
    (signed_url st service path ttl bucket).2
      = [⟨_client st, signed_url_request st path ttl bucket⟩] := by
  unfold signed_url
  cases h : service (_client st) (signed_url_request st path ttl bucket) <;> simp [h]

/-! ### Claim C1 -/

/-- Claim C1: for every response dictionary returned by the storage client,
`signed_url` returns the URL string, accepting either of the two key
spellings `signedURL` and `signed_url`, and returns None when neither key is
present in the response. -/
theorem signed_url_accepts_both_spellings
    (st : Settings) (path : String) (ttl : Int) (bucket : Option String)
    (res : List (String × PyVal)) (u : String) :
    ((dictGet res "signedURL" = PyVal.vstr u ∧ u ≠ "") →
      (signed_url st (constService res) path ttl bucket).1
        = Except.ok (PyVal.vstr u)) ∧
    ((dictGet res "signedURL" = PyVal.vnone ∧ dictGet res "signed_url" = PyVal.vstr u) →
      (signed_url st (constService res) path ttl bucket).1
        = Except.ok (PyVal.vstr u)) ∧
    ((dictGet res "signedURL" = PyVal.vnone ∧ dictGet res "signed_url" = PyVal.vnone) →
      (signed_url st (constService res) path ttl bucket).1
        = Except.ok PyVal.vnone) := by
  refine ⟨?_, ?_, ?_⟩ <;> rintro ⟨h1, h2⟩ <;>
    simp [signed_url, constService, pyOr, truthy, h1, h2]

/-- Witness for C1 at concrete responses: one holding only `signedURL`, one
holding only `signed_url`, and one holding neither. -/
theorem signed_url_accepts_both_spellings_witness :
    ((signed_url stEx (constService [("signedURL", PyVal.vstr "https://s.example/a")])
        "p" 60 Option.none).1 = Except.ok (PyVal.vstr "https://s.example/a")) ∧
    ((signed_url stEx (constService [("signed_url", PyVal.vstr "https://s.example/b")])
        "p" 60 Option.none).1 = Except.ok (PyVal.vstr "https://s.example/b")) ∧
    ((signed_url stEx (constService [("other", PyVal.vstr "x")]) "p" 60 Option.none).1
        = Except.ok PyVal.vnone) := by
  refine ⟨?_, ?_, ?_⟩
  · exact (signed_url_accepts_both_spellings stEx "p" 60 Option.none
      [("signedURL", PyVal.vstr "https://s.example/a")] "https://s.example/a").1
      ⟨by decide, by decide⟩
  · exact (signed_url_accepts_both_spellings stEx "p" 60 Option.none
      [("signed_url", PyVal.vstr "https://s.example/b")] "https://s.example/b").2.1
      ⟨by decide, by decide⟩
  · exact (signed_url_accepts_both_spellings stEx "p" 60 Option.none
      [("other", PyVal.vstr "x")] "").2.2 ⟨by decide, by decide⟩

/-! ### Claim C2 -/

/-- Counterexample to C2 as stated: a bucket argument is supplied (the empty
string) yet the request is sent to the configured default bucket
`course-content`, not to the supplied bucket. -/
theorem supplied_empty_bucket_not_used :
    ((upload_bytes stEx svcOk "p" [0] (Option.some "")).2.map ClientCall.req
      = [StorageRequest.upload "course-content" "p" [0] true]) ∧
    "course-content" ≠ "" :=
  ⟨rfl, by decide⟩

/-- Claim C2 (amended): both operations use the configured default bucket
when no bucket argument is supplied, and use the explicitly passed bucket
whenever the supplied bucket is truthy (non-empty); a supplied falsy bucket
such as `""` falls back to the default, mirroring Python's
`bucket or settings.SUPABASE_BUCKET`. -/
theorem bucket_default_and_truthy_override
    (st : Settings) (service : Service) (path : String) (data : List Nat)
    (ttl : Int) (b : String) :
    ((upload_bytes st service path data Option.none).2.map ClientCall.req
        = [StorageRequest.upload st.SUPABASE_BUCKET path data true]) ∧
    ((signed_url st service path ttl Option.none).2.map ClientCall.req
        = [StorageRequest.createSignedUrl st.SUPABASE_BUCKET path ttl]) ∧
    (b ≠ "" →
      ((upload_bytes st service path data (Option.some b)).2.map ClientCall.req
          = [StorageRequest.upload b path data true]) ∧
      ((signed_url st service path ttl (Option.some b)).2.map ClientCall.req
          = [StorageRequest.createSignedUrl b path ttl])) := by
  refine ⟨?_, ?_, fun hb => ⟨?_, ?_⟩⟩ <;>
    simp [upload_bytes_calls, signed_url_calls, upload_request,
      signed_url_request, resolve_bucket, *]

/-- Witness for C2 (amended) at a concrete non-empty supplied bucket. -/
theorem bucket_default_and_truthy_override_witness :
    (upload_bytes stEx svcOk "p" [0] (Option.some "other-bucket")).2.map ClientCall.req
      = [StorageRequest.upload "other-bucket" "p" [0] true] :=
  ((bucket_default_and_truthy_override stEx svcOk "p" [0] 60 "other-bucket").2.2
    (by decide)).1

/-! ### Claim C3 -/

/-- Counterexample to C3 as stated: a call with an empty object path is not
rejected by this code — it is passed to the storage service (exactly one
client call, carrying the empty path) and succeeds; likewise a signed-URL
request with ttl 0 is passed through. -/
theorem empty_path_and_zero_ttl_passed_to_service :
    ((upload_bytes stEx svcOk "" [] Option.none).1 = Except.ok "") ∧
    ((upload_bytes stEx svcOk "" [] Option.none).2.map ClientCall.req
      = [StorageRequest.upload "course-content" "" [] true]) ∧
    ((signed_url stEx svcOk "p" 0 Option.none).2.map ClientCall.req
      = [StorageRequest.createSignedUrl "course-content" "p" 0]) :=
  ⟨rfl, rfl, rfl⟩

/-- Claim C3 (amended): this code enforces no invariant at all — neither
"path is non-empty" nor "ttl > 0": a call with an empty path or a
non-positive ttl is passed to the storage service unchanged rather than
rejected locally; the storage service is the source of truth. -/
theorem no_local_invariant_enforced
    (st : Settings) (service : Service) (data : List Nat)
    (bucket : Option String) (ttl : Int) (h : ttl ≤ 0) :
    ((upload_bytes st service "" data bucket).2.map ClientCall.req
        = [StorageRequest.upload (resolve_bucket st bucket) "" data true]) ∧
    ((signed_url st service "" ttl bucket).2.map ClientCall.req
        = [StorageRequest.createSignedUrl (resolve_bucket st bucket) "" ttl]) := by
  constructor <;>
    simp [upload_bytes_calls, signed_url_calls, upload_request, signed_url_request]

/-- Witness for C3 (amended) at ttl 0. -/
theorem no_local_invariant_enforced_witness :
    ((upload_bytes stEx svcOk "" [] Option.none).2.map ClientCall.req
        = [StorageRequest.upload (resolve_bucket stEx Option.none) "" [] true]) ∧
    ((signed_url stEx svcOk "" 0 Option.none).2.map ClientCall.req
        = [StorageRequest.createSignedUrl (resolve_bucket stEx Option.none) "" 0]) :=
  no_local_invariant_enforced stEx svcOk [] Option.none 0 (by decide)

/-! ### Claim C4 -/

/-- Claim C4: every `upload_bytes` call sends the byte payload to the storage
service under bucket/path with the upsert (overwrite) option set, so that —
against the modelled service state — a second upload to the same path
replaces any existing object at that path. -/
theorem upload_upsert_overwrites
    (st : Settings) (service : Service) (path : String) (d1 d2 : List Nat)
    (bucket : Option String) (store : List ((String × String) × List Nat)) :
    ((upload_bytes st service path d2 bucket).2.map ClientCall.req
        = [StorageRequest.upload (resolve_bucket st bucket) path d2 true]) ∧
    (storeLookup
        (applyRequest (applyRequest store (upload_request st path d1 bucket))
          (upload_request st path d2 bucket))
        (resolve_bucket st bucket) path
      = Option.some d2) := by
  constructor
  · simp [upload_bytes_calls, upload_request]
  · simp [applyRequest, upload_request, storeUpsert, storeLookup]

/-! ### Claim C5 -/

/-- Claim C5: for every path, payload and bucket, `upload_bytes` returns
exactly the path argument it was given when the storage call succeeds. -/
theorem upload_bytes_returns_path
    (st : Settings) (service : Service) (path : String) (data : List Nat)
    (bucket : Option String) (r : List (String × PyVal))
    (h : service (_client st) (upload_request st path data bucket) = Except.ok r) :
    (upload_bytes st service path data bucket).1 = Except.ok path := by
  simp [upload_bytes, h]

/-- Witness for C5: with a service that accepts the request, the path comes
back unchanged. -/
theorem upload_bytes_returns_path_witness :
    (upload_bytes stEx svcOk "lesson/1.pdf" [1, 2] Option.none).1
      = Except.ok "lesson/1.pdf" :=
  upload_bytes_returns_path stEx svcOk "lesson/1.pdf" [1, 2] Option.none [] rfl

/-! ### Claim C6 -/

/-- Claim C6: when the storage client call fails, each operation propagates
the storage service's error unchanged to the caller, performs exactly one
client call (no retry or local recovery), and introduces no error taxonomy
of its own. -/
theorem errors_propagate_single_call
    (st : Settings) (service : Service) (path : String) (data : List Nat)
    (bucket : Option String) (ttl : Int) (e : String) :
    ((upload_bytes st service path data bucket).2.length = 1) ∧
    ((signed_url st service path ttl bucket).2.length = 1) ∧
    (service (_client st) (upload_request st path data bucket) = Except.error e →
      (upload_bytes st service path data bucket).1 = Except.error e) ∧
    (service (_client st) (signed_url_request st path ttl bucket) = Except.error e →
      (signed_url st service path ttl bucket).1 = Except.error e) := by
  refine ⟨?_, ?_, fun h => ?_, fun h => ?_⟩
  · simp [upload_bytes_calls]
  · simp [signed_url_calls]
  · simp [upload_bytes, h]
  · simp [signed_url, h]

/-- Witness for C6: a failing service's error string comes back verbatim
from both operations. -/
theorem errors_propagate_single_call_witness :
    ((upload_bytes stEx svcErr "p" [0] Option.none).1
        = Except.error "network failure") ∧
    ((signed_url stEx svcErr "p" 60 Option.none).1
        = Except.error "network failure") :=
  ⟨(errors_propagate_single_call stEx svcErr "p" [0] Option.none 60
      "network failure").2.2.1 rfl,
   (errors_propagate_single_call stEx svcErr "p" [0] Option.none 60
      "network failure").2.2.2 rfl⟩

/-! ### Claim C7 -/

/-- Claim C7: when `signed_url` is called without an expiry argument, it
requests a signed URL with a ttl of exactly 60 seconds. -/
theorem signed_url_default_ttl_is_60
    (st : Settings) (service : Service) (path : String) :
    (signed_url st service path).2.map ClientCall.req
      = [StorageRequest.createSignedUrl st.SUPABASE_BUCKET path 60] := by
  simp [signed_url_calls, signed_url_request, resolve_bucket]

/-! ### Claim C8 -/

/-- Claim C8: the single shared module-level client is built from the
configured service URL and service-role credential, and every client call
performed by `upload_bytes` and by `signed_url` goes through exactly that
client — neither operation constructs a different client. -/
theorem single_shared_client
    (st : Settings) (service : Service) (path : String) (data : List Nat)
    (bucket : Option String) (ttl : Int) :
    (_client st = create_client st.SUPABASE_URL st.SUPABASE_SERVICE_ROLE) ∧
    ((upload_bytes st service path data bucket).2.map ClientCall.client
        = [_client st]) ∧
    ((signed_url st service path ttl bucket).2.map ClientCall.client
        = [_client st]) := by
  refine ⟨rfl, ?_, ?_⟩ <;> simp [upload_bytes_calls, signed_url_calls]

/-! ### Claim C9 -/

/-- Claim C9: in `signed_url`'s response parsing the `signedURL` value takes
precedence, but the fall-back to `signed_url` fires on any falsy `signedURL`
value, not only a missing key: when the response maps `signedURL` to Python
None or to the empty string while `signed_url` holds a URL, the `signed_url`
value is returned. -/
theorem signedURL_falsy_falls_back
    (st : Settings) (path : String) (ttl : Int) (bucket : Option String)
    (res : List (String × PyVal)) (u : String) :
    ((dictGet res "signedURL" = PyVal.vnone ∨ dictGet res "signedURL" = PyVal.vstr "") →
      dictGet res "signed_url" = PyVal.vstr u →
      (signed_url st (constService res) path ttl bucket).1
        = Except.ok (PyVal.vstr u)) ∧
    (u ≠ "" → dictGet res "signedURL" = PyVal.vstr u →
      (signed_url st (constService res) path ttl bucket).1
        = Except.ok (PyVal.vstr u)) := by
  constructor
  · rintro (h1 | h1) h2 <;> simp [signed_url, constService, pyOr, truthy, h1, h2]
  · intro hu h1
    simp [signed_url, constService, pyOr, truthy, h1, hu]

/-- Witness for C9: a response mapping `signedURL` to the empty string and
`signed_url` to a URL yields the `signed_url` value. -/
theorem signedURL_falsy_falls_back_witness :
    (signed_url stEx
        (constService
          [("signedURL", PyVal.vstr ""), ("signed_url", PyVal.vstr "https://s.example/f")])
        "p" 60 Option.none).1
      = Except.ok (PyVal.vstr "https://s.example/f") :=
  (signedURL_falsy_falls_back stEx "p" 60 Option.none
      [("signedURL", PyVal.vstr ""), ("signed_url", PyVal.vstr "https://s.example/f")]
      "https://s.example/f").1 (Or.inr (by decide)) (by decide)

/-! ### Claim C10 -/

/-- Claim C10: the admin module registers exactly five models (PDFDocument,
Course, Lesson, LessonPDF, Enrollment); Lesson is registered with
`LessonAdmin`, whose `list_display` is `("title", "course", "created_at")`
and which includes the `LessonPDF` tabular inline configured with one extra
blank form. -/
theorem admin_registers_five_models :
    (site_registrations.map modelOf
      = [Model.PDFDocument, Model.Course, Model.Lesson, Model.LessonPDF,
         Model.Enrollment]) ∧
    (site_registrations.length = 5) ∧
    (AdminEntry.withAdmin Model.Lesson LessonAdmin ∈ site_registrations) ∧
    (LessonAdmin.list_display = ["title", "course", "created_at"]) ∧
    (LessonAdmin.inlines = [LessonPDFInline]) ∧
    (LessonPDFInline.model = Model.LessonPDF) ∧
    (LessonPDFInline.extra = 1) := by
  refine ⟨rfl, rfl, ?_, rfl, rfl, rfl, rfl⟩
  simp [site_registrations]

end EdTech
